import Mathlib

set_option maxHeartbeats 1000000

/-!
Shallow embedding of `biocloudcentral/amazon/launch.py`.

The module is a thin provisioning layer over the boto AWS SDK.  We embed the
provider (EC2 and IAM) as explicit state records, every provider API call as a
recorded event, and possible provider failures as an explicit failure oracle
passed to each function.  A provider call that raises inside a Python
`try/except` block is modelled by consulting the oracle at the call site and
taking the handler branch; a call that raises outside any `try` block makes the
embedded function return `Except.error`, modelling an uncaught exception
propagating to the caller.  State changes performed before a failing call
persist, exactly as they do against a real provider.

boto detail reflected here: `SecurityGroup.authorize` appends the authorized
rule to the local `rules` list on success, so the in-memory group object and
the provider state stay in sync during `create_cm_security_group`.
-/

namespace Launch

/-- Exceptions that can cross the provider boundary. -/
inductive Exn where
  | ec2ResponseError
  | iamError
  | keyError
deriving DecidableEq

/-- A grant of a security-group rule: either a CIDR grant (`cidr_ip` set) or a
group grant (`name` set), mirroring boto grant objects. -/
structure Grant where
  cidr_ip : Option String
  name : Option String
deriving DecidableEq

/-- A security-group rule as exposed by boto: protocol, port range and grants.
Group-to-group rules added locally by boto carry `none` in the protocol and
port fields. -/
structure Rule where
  ip_protocol : Option String
  from_port : Option String
  to_port : Option String
  grants : List Grant
deriving DecidableEq

/-- A named security group with its rule list. -/
structure SecurityGroup where
  name : String
  rules : List Rule
deriving DecidableEq

/-- EC2-side provider state: security groups and key-pair names. -/
structure EC2State where
  securityGroups : List SecurityGroup
  keyPairs : List String
deriving DecidableEq

/-- Provider API calls issued by the module, recorded as a trace. -/
inductive Ev where
  | getAllSecurityGroups : Ev
  | createSecurityGroup : String → Ev
  | authorize : String → String → String → String → Ev
  | authorizeGroup : String → Ev
  | getAllKeyPairs : Ev
  | createKeyPair : String → Ev
  | runInstances : String → String → Ev
  | getAllGroups : Ev
  | createGroup : String → Ev
  | putGroupPolicy : String → String → String → Ev
  | getAllUsers : Ev
  | createUser : String → Ev
  | addUserToGroup : String → String → Ev
  | createAccessKey : String → Ev
deriving DecidableEq

/-- Failure oracle for the EC2 calls: `true` means the provider raises
`EC2ResponseError` on that call. -/
structure EC2Failures where
  getAllSecurityGroups : Bool
  createSecurityGroup : Bool
  authorize : String → String → Bool
  authorizeGroup : Bool
  getAllKeyPairs : Bool
  createKeyPair : Bool
  runInstances : Bool

/-- The oracle under which every EC2 call succeeds. -/
def noFailEC2 : EC2Failures :=
  ⟨false, false, fun _ _ => false, false, false, false, false⟩

/-- Source `rule_exists(rules, from_port, to_port, ip_protocol='tcp',
cidr_ip='0.0.0.0/0')` from the source: a rule is present only on an exact
match of protocol, both ports, and the source CIDR among the grants. -/
def rule_exists (rules : List Rule) (from_port to_port ip_protocol cidr_ip : String) : Bool :=
  rules.any fun rule =>
    rule.ip_protocol == some ip_protocol && rule.from_port == some from_port &&
      rule.to_port == some to_port &&
      (rule.grants.map (fun ip => ip.cidr_ip)).contains (some cidr_ip)

/-- The rule appended (locally and provider-side) by a successful
`cmsg.authorize(ip_protocol='tcp', from_port=.., to_port=.., cidr_ip='0.0.0.0/0')`. -/
def portRule (from_port to_port : String) : Rule :=
  ⟨some "tcp", some from_port, some to_port, [⟨some "0.0.0.0/0", none⟩]⟩

/-- The rule appended by a successful `cmsg.authorize(src_group=cmsg)`: boto
records a rule with no protocol or ports whose grant names the group. -/
def groupRule (sg_name : String) : Rule :=
  ⟨none, none, none, [⟨none, some sg_name⟩]⟩

/-- The `ports` tuple of `create_cm_security_group`. -/
def cm_ports : List (String × String) :=
  [("80", "80"), ("20", "21"), ("22", "22"), ("30000", "30100"), ("42284", "42284")]

/-- The per-port loop of `create_cm_security_group` (lines 176-183): for each
port pair, if no exact-match rule exists, attempt `authorize`; an
`EC2ResponseError` from the attempt is caught and logged, and the loop
continues with the next port. Returns the final rule list and the trace of
attempted authorize calls. -/
def authorizePorts (f : EC2Failures) : List (String × String) → List Rule → List Rule × List Ev
  | [], rules => (rules, [])
  | p :: ps, rules =>
    if rule_exists rules p.1 p.2 "tcp" "0.0.0.0/0" then
      authorizePorts f ps rules
    else if f.authorize p.1 p.2 then
      let r := authorizePorts f ps rules
      (r.1, Ev.authorize "tcp" p.1 p.2 "0.0.0.0/0" :: r.2)
    else
      let r := authorizePorts f ps (rules ++ [portRule p.1 p.2])
      (r.1, Ev.authorize "tcp" p.1 p.2 "0.0.0.0/0" :: r.2)

/-- The group-rule scan of `create_cm_security_group` (lines 185-192): the
flag `g_rule_exists` is set iff some grant of some rule names the group. -/
def group_rule_exists (rules : List Rule) (sg_name : String) : Bool :=
  rules.any fun rule => rule.grants.any fun grant => grant.name == some sg_name

/-- Lines 169-197 of the source: authorize the five port rules, then the
self-referential group rule, each attempt guarded by its own `try/except`. -/
def configure_rules (f : EC2Failures) (sg_name : String) (rules : List Rule) :
    List Rule × List Ev :=
  let r := authorizePorts f cm_ports rules
  if group_rule_exists r.1 sg_name then r
  else if f.authorizeGroup then (r.1, r.2 ++ [Ev.authorizeGroup sg_name])
  else (r.1 ++ [groupRule sg_name], r.2 ++ [Ev.authorizeGroup sg_name])

/-- Replace the rules of the first group with the given name (writing the
final in-memory rule list back into the provider view). -/
def set_sg_rules : List SecurityGroup → String → List Rule → List SecurityGroup
  | [], _, _ => []
  | sg :: sgs, sg_name, rules =>
    if sg.name == sg_name then { sg with rules := rules } :: sgs
    else sg :: set_sg_rules sgs sg_name rules

/-- Source `create_cm_security_group(ec2_conn, sg_name='CloudMan')`: look the group up
by name, create it if absent, then add the missing authorizations.  The
listing and creation calls are not inside any `try` block, so a provider error
there propagates (`Except.error`). Returns the group name on success. -/
def create_cm_security_group (ec2 : EC2State) (f : EC2Failures) (sg_name : String) :
    Except Exn String × EC2State × List Ev :=
  if f.getAllSecurityGroups then
    (Except.error Exn.ec2ResponseError, ec2, [Ev.getAllSecurityGroups])
  else
    match ec2.securityGroups.find? (fun sg => sg.name == sg_name) with
    | some cmsg =>
      let r := configure_rules f sg_name cmsg.rules
      (Except.ok cmsg.name,
        { ec2 with securityGroups := set_sg_rules ec2.securityGroups sg_name r.1 },
        Ev.getAllSecurityGroups :: r.2)
    | none =>
      if f.createSecurityGroup then
        (Except.error Exn.ec2ResponseError, ec2,
          [Ev.getAllSecurityGroups, Ev.createSecurityGroup sg_name])
      else
        let r := configure_rules f sg_name []
        (Except.ok sg_name,
          { ec2 with securityGroups :=
              set_sg_rules (ec2.securityGroups ++ [⟨sg_name, []⟩]) sg_name r.1 },
          Ev.getAllSecurityGroups :: Ev.createSecurityGroup sg_name :: r.2)

/-- Source `create_key_pair(ec2_conn, key_name='cloudman_key_pair')`: existence check
by name only; if present return the name immediately; otherwise create inside
a `try` that converts an `EC2ResponseError` into a `None` return.  The listing
call is not inside any `try` block, so a provider error there propagates. -/
def create_key_pair (ec2 : EC2State) (f : EC2Failures) (key_name : String) :
    Except Exn (Option String) × EC2State × List Ev :=
  if f.getAllKeyPairs then
    (Except.error Exn.ec2ResponseError, ec2, [Ev.getAllKeyPairs])
  else
    match ec2.keyPairs.find? (fun akp => akp == key_name) with
    | some kp => (Except.ok (some kp), ec2, [Ev.getAllKeyPairs])
    | none =>
      if f.createKeyPair then
        (Except.ok none, ec2, [Ev.getAllKeyPairs, Ev.createKeyPair key_name])
      else
        (Except.ok (some key_name),
          { ec2 with keyPairs := ec2.keyPairs ++ [key_name] },
          [Ev.getAllKeyPairs, Ev.createKeyPair key_name])

/-- The Python property bag `user_provided_data`, modelled as an association
list in iteration order; dict keys are unique (`List.Nodup` on the keys). -/
def lookupKey (d : List (String × String)) (k : String) : Option String :=
  (d.find? (fun kv => kv.1 == k)).map (fun kv => kv.2)

/-- Python `del d[k]`: remove the (unique) entry with the given key. -/
def delKey : List (String × String) → String → List (String × String)
  | [], _ => []
  | kv :: rest, k => if kv.1 == k then rest else kv :: delKey rest k

/-- Line 242: `"\n".join(['%s: %s' % (key, value) for key, value in d.iteritems()])`. -/
def user_data (d : List (String × String)) : String :=
  String.intercalate "\n" (d.map (fun kv => kv.1 ++ ": " ++ kv.2))

/-- Source `run_instance(ec2_conn, user_provided_data, ...)`: read and delete the
`instance_type` key from the property bag (an absent key raises an uncaught
`KeyError` before any provider call), serialize the remaining entries as the
user-data payload, and launch inside a `try` that converts an
`EC2ResponseError` into a `None` result.  The final component of the result is
the property bag as left behind by the in-place mutation. -/
def run_instance (ec2 : EC2State) (f : EC2Failures)
    (user_provided_data : List (String × String)) :
    Except Exn (Option String) × EC2State × List Ev × List (String × String) :=
  match lookupKey user_provided_data "instance_type" with
  | none => (Except.error Exn.keyError, ec2, [], user_provided_data)
  | some instance_type =>
    let d := delKey user_provided_data "instance_type"
    let ud := user_data d
    if f.runInstances then
      (Except.ok none, ec2, [Ev.runInstances instance_type ud], d)
    else
      (Except.ok (some "i-00000001"), ec2, [Ev.runInstances instance_type ud], d)

/-- The static `CM_POLICY` JSON policy document from the top of the module,
passed verbatim to `put_group_policy` (braces written as hex escapes). -/
def CM_POLICY : String :=
  "\x7b\n  \"Statement\": [\n    \x7b\n      \"Sid\": \"Stmt1319820532566\",\n      \"Action\": [\n        \"ec2:AttachVolume\",\n        \"ec2:CreateSnapshot\",\n        \"ec2:CreateTags\",\n        \"ec2:CreateVolume\",\n        \"ec2:DeleteSnapshot\",\n        \"ec2:DeleteTags\",\n        \"ec2:DeleteVolume\",\n        \"ec2:DescribeAvailabilityZones\",\n        \"ec2:DescribeInstanceAttribute\",\n        \"ec2:DescribeInstances\",\n        \"ec2:DescribeKeyPairs\",\n        \"ec2:DescribePlacementGroups\",\n        \"ec2:DescribeRegions\",\n        \"ec2:DescribeSecurityGroups\",\n        \"ec2:DescribeSnapshotAttribute\",\n        \"ec2:DescribeSnapshots\",\n        \"ec2:DescribeTags\",\n        \"ec2:DescribeVolumes\",\n        \"ec2:DetachVolume\",\n        \"ec2:GetConsoleOutput\",\n        \"ec2:Monitoring\",\n        \"ec2:MonitorInstances\",\n        \"ec2:RebootInstances\",\n        \"ec2:RunInstances\",\n        \"ec2:TerminateInstances\"\n      ],\n      \"Effect\": \"Allow\",\n      \"Resource\": \"*\"\n    \x7d,\n    \x7b\n      \"Sid\": \"Stmt1319820637269\",\n      \"Action\": [\n        \"s3:CreateBucket\",\n        \"s3:DeleteBucket\",\n        \"s3:DeleteObject\",\n        \"s3:GetBucketAcl\",\n        \"s3:GetBucketPolicy\",\n        \"s3:GetObject\",\n        \"s3:GetObjectAcl\",\n        \"s3:ListAllMyBuckets\",\n        \"s3:ListBucket\",\n        \"s3:ListBucketMultipartUploads\",\n        \"s3:PutBucketAcl\",\n        \"s3:PutBucketPolicy\",\n        \"s3:PutObject\",\n        \"s3:PutObjectAcl\"\n      ],\n      \"Effect\": \"Allow\",\n      \"Resource\": \"arn:aws:s3:::*\"\n    \x7d\n  ]\n\x7d"

/-- One issued access-key credential pair, as stored provider-side. -/
structure AccessKey where
  user_name : String
  access_key_id : String
  secret_access_key : String
deriving DecidableEq

/-- IAM-side provider state.  `keyLimit` is the provider-enforced cap on
concurrent access-key pairs per user (2 on AWS); `keyCounter` drives fresh
credential generation. -/
structure IAMState where
  groups : List String
  users : List String
  groupPolicies : List (String × String × String)
  memberships : List (String × String)
  accessKeys : List AccessKey
  keyLimit : Nat
  keyCounter : Nat
deriving DecidableEq

/-- Failure oracle for the IAM calls: `true` means the provider raises on that
call.  (The quota error of `create_access_key` is enforced by the state's
`keyLimit` independently of this oracle.) -/
structure IAMFailures where
  getAllGroups : Bool
  createGroup : Bool
  putGroupPolicy : Bool
  getAllUsers : Bool
  createUser : Bool
  addUserToGroup : Bool
  createAccessKey : Bool
deriving DecidableEq

/-- The oracle under which every IAM call succeeds. -/
def noFailIAM : IAMFailures := ⟨false, false, false, false, false, false, false⟩

/-- Provider-side effect of `put_group_policy`: overwrite the policy stored
under `(group, policy_name)`, last write wins. -/
def putPolicy (ps : List (String × String × String)) (g pn doc : String) :
    List (String × String × String) :=
  ps.filter (fun e => !(e.1 == g && e.2.1 == pn)) ++ [(g, pn, doc)]

/-- Number of access-key pairs currently issued to a user. -/
def countKeys (ks : List AccessKey) (u : String) : Nat :=
  (ks.filter (fun k => k.user_name == u)).length

/-- Provider-side `create_access_key`: raises a limit error once the user
already holds `keyLimit` key pairs, otherwise mints a fresh pair. -/
def create_access_key_call (st : IAMState) (u : String) :
    Except Exn (String × String) × IAMState :=
  if st.keyLimit ≤ countKeys st.accessKeys u then (Except.error Exn.iamError, st)
  else
    let ak := "AKIA" ++ toString st.keyCounter
    let sk := "SK" ++ toString st.keyCounter
    (Except.ok (ak, sk),
      { st with accessKeys := st.accessKeys ++ [⟨u, ak, sk⟩],
                keyCounter := st.keyCounter + 1 })

/-- Lines 120-147 of `create_iam_user`: ensure the user exists, add it to the
group, and create fresh access credentials.  Runs inside the surrounding
`try/except Exception`, so any provider failure here yields the
`(None, None)` result with the state reached so far. -/
def iam_users_and_keys (st : IAMState) (f : IAMFailures) (group_name user_name : String) :
    Except Exn (Option String × Option String) × IAMState × List Ev :=
  if f.getAllUsers then (Except.ok (none, none), st, [Ev.getAllUsers]) else
  if !st.users.contains user_name && f.createUser then
    (Except.ok (none, none), st, [Ev.getAllUsers, Ev.createUser user_name])
  else
    let st1 := if st.users.contains user_name then st
               else { st with users := st.users ++ [user_name] }
    let t1 := if st.users.contains user_name then [Ev.getAllUsers]
              else [Ev.getAllUsers, Ev.createUser user_name]
    if f.addUserToGroup then
      (Except.ok (none, none), st1, t1 ++ [Ev.addUserToGroup group_name user_name])
    else
      let st2 := if st1.memberships.contains (group_name, user_name) then st1
                 else { st1 with memberships := st1.memberships ++ [(group_name, user_name)] }
      let t2 := t1 ++ [Ev.addUserToGroup group_name user_name, Ev.createAccessKey user_name]
      if f.createAccessKey then (Except.ok (none, none), st2, t2)
      else
        match create_access_key_call st2 user_name with
        | (Except.error _, st3) => (Except.ok (none, none), st3, t2)
        | (Except.ok aksk, st3) => (Except.ok (some aksk.1, some aksk.2), st3, t2)

/-- Source `create_iam_user(a_key, s_key, group_name='BioCloudCentral',
user_name='cloudman')`: ensure the group exists, attach the policy document
unconditionally, ensure the user exists and is a group member, then mint a
fresh access-key pair.  The whole body sits inside `try/except Exception`, so
every provider failure is downgraded to a logged error and a `(None, None)`
return; nothing propagates. -/
def create_iam_user (iam : IAMState) (f : IAMFailures) (group_name user_name : String) :
    Except Exn (Option String × Option String) × IAMState × List Ev :=
  if f.getAllGroups then (Except.ok (none, none), iam, [Ev.getAllGroups]) else
  if !iam.groups.contains group_name && f.createGroup then
    (Except.ok (none, none), iam, [Ev.getAllGroups, Ev.createGroup group_name])
  else
    let iam1 := if iam.groups.contains group_name then iam
                else { iam with groups := iam.groups ++ [group_name] }
    let t1 := if iam.groups.contains group_name then [Ev.getAllGroups]
              else [Ev.getAllGroups, Ev.createGroup group_name]
    let cm_policy_name := group_name ++ "Policy"
    let t2 := t1 ++ [Ev.putGroupPolicy group_name cm_policy_name CM_POLICY]
    if f.putGroupPolicy then (Except.ok (none, none), iam1, t2)
    else
      let iam2 := { iam1 with groupPolicies :=
                      putPolicy iam1.groupPolicies group_name cm_policy_name CM_POLICY }
      let r := iam_users_and_keys iam2 f group_name user_name
      (r.1, r.2.1, t2 ++ r.2.2)

/-! General list helpers. -/

theorem find?_append_none {α : Type} (p : α → Bool) (l2 : List α) :
    ∀ l1 : List α, l1.find? p = none → (l1 ++ l2).find? p = l2.find? p := by
  intro l1
  induction l1 with
  | nil => intro _; rfl
  | cons a t ih =>
    intro h
    rw [List.find?_eq_none] at h
    have ha : ¬p a = true := h a (List.mem_cons_self a t)
    have ht : t.find? p = none :=
      List.find?_eq_none.mpr fun x hx => h x (List.mem_cons_of_mem a hx)
    rw [List.cons_append, List.find?_cons_of_neg _ ha, ih ht]

/-! Facts about `rule_exists` and the port-authorization loop. -/

theorem rule_exists_append {rs l : List Rule} {fp tp pr c : String}
    (h : rule_exists rs fp tp pr c = true) :
    rule_exists (rs ++ l) fp tp pr c = true := by
  simp only [rule_exists, List.any_append, Bool.or_eq_true]
  exact Or.inl h

theorem group_rule_exists_append {rs l : List Rule} {n : String}
    (h : group_rule_exists rs n = true) :
    group_rule_exists (rs ++ l) n = true := by
  simp only [group_rule_exists, List.any_append, Bool.or_eq_true]
  exact Or.inl h

theorem rule_exists_portRule (a b : String) :
    rule_exists [portRule a b] a b "tcp" "0.0.0.0/0" = true := by
  simp [rule_exists, portRule]

theorem authorizePorts_extends (f : EC2Failures) (ps : List (String × String))
    (rs : List Rule) : ∃ l, (authorizePorts f ps rs).1 = rs ++ l := by
  induction ps generalizing rs with
  | nil => exact ⟨[], by simp [authorizePorts]⟩
  | cons p ps ih =>
    simp only [authorizePorts]
    by_cases h1 : rule_exists rs p.1 p.2 "tcp" "0.0.0.0/0" = true
    · rw [if_pos h1]; exact ih rs
    · rw [if_neg h1]
      by_cases h2 : f.authorize p.1 p.2 = true
      · rw [if_pos h2]; exact ih rs
      · rw [if_neg h2]
        obtain ⟨l, hl⟩ := ih (rs ++ [portRule p.1 p.2])
        exact ⟨portRule p.1 p.2 :: l, by simp [hl]⟩

theorem authorizePorts_all_exist (ps : List (String × String)) :
    ∀ rs : List Rule, ∀ p ∈ ps,
      rule_exists (authorizePorts noFailEC2 ps rs).1 p.1 p.2 "tcp" "0.0.0.0/0" = true := by
  induction ps with
  | nil => intro rs p hp; cases hp
  | cons q ps ih =>
    intro rs p hp
    have hq : noFailEC2.authorize q.1 q.2 = false := rfl
    simp only [authorizePorts, hq, Bool.false_eq_true, if_false]
    by_cases h1 : rule_exists rs q.1 q.2 "tcp" "0.0.0.0/0" = true
    · rw [if_pos h1]
      rcases List.mem_cons.mp hp with rfl | hp'
      · obtain ⟨l, hl⟩ := authorizePorts_extends noFailEC2 ps rs
        rw [hl]
        exact rule_exists_append h1
      · exact ih rs p hp'
    · rw [if_neg h1]
      rcases List.mem_cons.mp hp with rfl | hp'
      · obtain ⟨l, hl⟩ := authorizePorts_extends noFailEC2 ps (rs ++ [portRule p.1 p.2])
        rw [hl]
        have hbase : rule_exists (rs ++ [portRule p.1 p.2]) p.1 p.2 "tcp" "0.0.0.0/0" = true := by
          simp only [rule_exists, List.any_append, Bool.or_eq_true]
          exact Or.inr (rule_exists_portRule p.1 p.2)
        exact rule_exists_append hbase
      · exact ih (rs ++ [portRule q.1 q.2]) p hp'

theorem authorizePorts_noop (f : EC2Failures) (ps : List (String × String)) (rs : List Rule)
    (h : ∀ p ∈ ps, rule_exists rs p.1 p.2 "tcp" "0.0.0.0/0" = true) :
    authorizePorts f ps rs = (rs, []) := by
  induction ps with
  | nil => rfl
  | cons q ps ih =>
    have hq := h q (List.mem_cons_self q ps)
    simp only [authorizePorts, hq, if_true]
    exact ih fun p hp => h p (List.mem_cons_of_mem q hp)

theorem configure_rules_post (sg_name : String) (rs : List Rule) :
    (∀ p ∈ cm_ports,
        rule_exists (configure_rules noFailEC2 sg_name rs).1 p.1 p.2 "tcp" "0.0.0.0/0" = true) ∧
      group_rule_exists (configure_rules noFailEC2 sg_name rs).1 sg_name = true := by
  unfold configure_rules
  have hg : noFailEC2.authorizeGroup = false := rfl
  by_cases h : group_rule_exists (authorizePorts noFailEC2 cm_ports rs).1 sg_name = true
  · rw [if_pos h]
    exact ⟨fun p hp => authorizePorts_all_exist cm_ports rs p hp, h⟩
  · rw [if_neg h]
    simp only [hg, Bool.false_eq_true, if_false]
    constructor
    · intro p hp
      exact rule_exists_append (authorizePorts_all_exist cm_ports rs p hp)
    · simp [group_rule_exists, List.any_append, groupRule]

theorem configure_rules_noop (f : EC2Failures) (sg_name : String) (rs : List Rule)
    (hp : ∀ p ∈ cm_ports, rule_exists rs p.1 p.2 "tcp" "0.0.0.0/0" = true)
    (hg : group_rule_exists rs sg_name = true) :
    configure_rules f sg_name rs = (rs, []) := by
  unfold configure_rules
  rw [authorizePorts_noop f cm_ports rs hp]
  simp [hg]

/-! Facts about `set_sg_rules`. -/

theorem find?_set_sg_rules_found (n : String) (r : List Rule) :
    ∀ sgs : List SecurityGroup, ∀ g : SecurityGroup,
      sgs.find? (fun sg => sg.name == n) = some g →
      (set_sg_rules sgs n r).find? (fun sg => sg.name == n) = some { g with rules := r } := by
  intro sgs
  induction sgs with
  | nil => intro g h; simp at h
  | cons a t ih =>
    intro g h
    by_cases ha : (a.name == n) = true
    · have hcons : (a :: t).find? (fun sg => sg.name == n) = some a :=
        List.find?_cons_of_pos t ha
      rw [hcons] at h
      cases h
      simp only [set_sg_rules, ha, if_true]
      exact List.find?_cons_of_pos _ ha
    · have hcons : (a :: t).find? (fun sg => sg.name == n) = t.find? (fun sg => sg.name == n) :=
        List.find?_cons_of_neg t ha
      rw [hcons] at h
      simp only [set_sg_rules, ha, Bool.false_eq_true, if_false]
      have hcons2 : (a :: set_sg_rules t n r).find? (fun sg => sg.name == n)
          = (set_sg_rules t n r).find? (fun sg => sg.name == n) :=
        List.find?_cons_of_neg _ ha
      rw [hcons2]
      exact ih g h

theorem set_sg_rules_set_sg_rules (n : String) (r r' : List Rule) :
    ∀ sgs : List SecurityGroup,
      set_sg_rules (set_sg_rules sgs n r) n r' = set_sg_rules sgs n r' := by
  intro sgs
  induction sgs with
  | nil => rfl
  | cons a t ih =>
    by_cases ha : (a.name == n) = true
    · simp [set_sg_rules, ha]
    · simp [set_sg_rules, ha, ih]

theorem set_sg_rules_append_none (n : String) (r : List Rule) (l : List SecurityGroup) :
    ∀ sgs : List SecurityGroup, sgs.find? (fun sg => sg.name == n) = none →
      set_sg_rules (sgs ++ l) n r = sgs ++ set_sg_rules l n r := by
  intro sgs
  induction sgs with
  | nil => intro _; rfl
  | cons a t ih =>
    intro h
    rw [List.find?_eq_none] at h
    have ha : ¬(a.name == n) = true := h a (List.mem_cons_self a t)
    have ht : t.find? (fun sg => sg.name == n) = none :=
      List.find?_eq_none.mpr fun x hx => h x (List.mem_cons_of_mem a hx)
    simp only [List.cons_append, set_sg_rules, ha, Bool.false_eq_true, if_false]
    exact congrArg (fun x => a :: x) (ih ht)

/-- C1: calling `create_cm_security_group` twice with the same group name
against the same provider yields exactly the same rule set as calling it once:
the second call finds every one of the five target port rules and the
self-referential group rule present by exact-tuple match, issues no authorize
call (its trace is just the listing call), and leaves the provider state
unchanged. -/
theorem C1_security_group_idempotent (ec2 : EC2State) (sg_name : String) :
    (create_cm_security_group (create_cm_security_group ec2 noFailEC2 sg_name).2.1
        noFailEC2 sg_name).2.1
      = (create_cm_security_group ec2 noFailEC2 sg_name).2.1 ∧
    (create_cm_security_group (create_cm_security_group ec2 noFailEC2 sg_name).2.1
        noFailEC2 sg_name).2.2 = [Ev.getAllSecurityGroups] := by
  have hga : noFailEC2.getAllSecurityGroups = false := rfl
  cases hfind : ec2.securityGroups.find? (fun sg => sg.name == sg_name) with
  | some g =>
    have hpost := configure_rules_post sg_name g.rules
    have h1 : (create_cm_security_group ec2 noFailEC2 sg_name).2.1 =
        { ec2 with securityGroups := (set_sg_rules ec2.securityGroups sg_name
            (configure_rules noFailEC2 sg_name g.rules).1) } := by
      simp only [create_cm_security_group, hga, Bool.false_eq_true, if_false, hfind]
    have hfind2 : ({ ec2 with securityGroups := (set_sg_rules ec2.securityGroups sg_name
          (configure_rules noFailEC2 sg_name g.rules).1) } : EC2State).securityGroups.find?
          (fun sg => sg.name == sg_name)
        = some { g with rules := (configure_rules noFailEC2 sg_name g.rules).1 } :=
      find?_set_sg_rules_found sg_name _ ec2.securityGroups g hfind
    have hnoop : configure_rules noFailEC2 sg_name
          (configure_rules noFailEC2 sg_name g.rules).1
        = ((configure_rules noFailEC2 sg_name g.rules).1, []) :=
      configure_rules_noop noFailEC2 sg_name _ hpost.1 hpost.2
    rw [h1]
    simp only [create_cm_security_group, hga, Bool.false_eq_true, if_false, hfind2, hnoop]
    refine ⟨?_, trivial⟩
    simp [set_sg_rules_set_sg_rules]
  | none =>
    have hcs : noFailEC2.createSecurityGroup = false := rfl
    have hpost := configure_rules_post sg_name ([] : List Rule)
    have hsgs1 : set_sg_rules (ec2.securityGroups ++ [⟨sg_name, []⟩]) sg_name
          (configure_rules noFailEC2 sg_name []).1
        = ec2.securityGroups ++ [⟨sg_name, (configure_rules noFailEC2 sg_name []).1⟩] := by
      rw [set_sg_rules_append_none sg_name _ _ ec2.securityGroups hfind]
      simp [set_sg_rules]
    have h1 : (create_cm_security_group ec2 noFailEC2 sg_name).2.1 =
        { ec2 with securityGroups :=
            (ec2.securityGroups ++ [⟨sg_name, (configure_rules noFailEC2 sg_name []).1⟩]) } := by
      simp only [create_cm_security_group, hga, hcs, Bool.false_eq_true, if_false, hfind]
      simp [hsgs1]
    have hfind2 : (ec2.securityGroups
          ++ [(⟨sg_name, (configure_rules noFailEC2 sg_name []).1⟩ : SecurityGroup)]).find?
          (fun sg => sg.name == sg_name)
        = some ⟨sg_name, (configure_rules noFailEC2 sg_name []).1⟩ := by
      rw [find?_append_none _ _ ec2.securityGroups hfind]
      exact List.find?_cons_of_pos _ (by simp)
    have hnoop : configure_rules noFailEC2 sg_name (configure_rules noFailEC2 sg_name []).1
        = ((configure_rules noFailEC2 sg_name []).1, []) :=
      configure_rules_noop noFailEC2 sg_name _ hpost.1 hpost.2
    rw [h1]
    simp only [create_cm_security_group, hga, Bool.false_eq_true, if_false, hfind2, hnoop]
    refine ⟨?_, trivial⟩
    have hset : set_sg_rules
          (ec2.securityGroups ++ [(⟨sg_name, (configure_rules noFailEC2 sg_name []).1⟩ :
              SecurityGroup)])
          sg_name (configure_rules noFailEC2 sg_name []).1
        = ec2.securityGroups ++ [⟨sg_name, (configure_rules noFailEC2 sg_name []).1⟩] := by
      rw [set_sg_rules_append_none sg_name _ _ ec2.securityGroups hfind]
      simp [set_sg_rules]
    simp [hset]

/-! Characterization of the authorize events issued by the port loop. -/

theorem rule_exists_append_port (rs : List Rule) (a b c d : String)
    (h : (a, b) ≠ (c, d)) :
    rule_exists (rs ++ [portRule a b]) c d "tcp" "0.0.0.0/0"
      = rule_exists rs c d "tcp" "0.0.0.0/0" := by
  have hab : ((a == c) && (b == d)) = false := by
    cases hac : (a == c) with
    | false => rfl
    | true =>
      cases hbd : (b == d) with
      | false => rfl
      | true => exact absurd (by rw [eq_of_beq hac, eq_of_beq hbd]) h
  simp only [rule_exists, List.any_append, List.any_cons, List.any_nil, Bool.or_false,
    portRule]
  simp [hab]

/-- Recognizer for the port-rule authorize events (`cmsg.authorize(ip_protocol=
'tcp', ...)`), as opposed to the group-rule authorize. -/
def isPortAuthorize : Ev → Bool
  | Ev.authorize _ _ _ _ => true
  | _ => false

theorem authorizePorts_events_noFail (ps : List (String × String)) (rs : List Rule)
    (hd : ps.Pairwise (· ≠ ·)) :
    authorizePorts noFailEC2 ps rs =
      (rs ++ (ps.filter
          (fun p => !rule_exists rs p.1 p.2 "tcp" "0.0.0.0/0")).map
            (fun p => portRule p.1 p.2),
        (ps.filter (fun p => !rule_exists rs p.1 p.2 "tcp" "0.0.0.0/0")).map
          (fun p => Ev.authorize "tcp" p.1 p.2 "0.0.0.0/0")) := by
  induction ps generalizing rs with
  | nil => simp [authorizePorts]
  | cons q ps ih =>
    have hq : noFailEC2.authorize q.1 q.2 = false := rfl
    obtain ⟨hqd, hps⟩ := List.pairwise_cons.mp hd
    by_cases h1 : rule_exists rs q.1 q.2 "tcp" "0.0.0.0/0" = true
    · simp only [authorizePorts, h1, if_true, List.filter_cons, Bool.not_eq_true']
      rw [ih rs hps]
      simp [h1]
    · have h1f : rule_exists rs q.1 q.2 "tcp" "0.0.0.0/0" = false :=
        Bool.not_eq_true _ |>.mp h1
      simp only [authorizePorts, h1, if_false, hq, Bool.false_eq_true]
      rw [ih (rs ++ [portRule q.1 q.2]) hps]
      have hcong : ps.filter
            (fun p => !rule_exists (rs ++ [portRule q.1 q.2]) p.1 p.2 "tcp" "0.0.0.0/0")
          = ps.filter (fun p => !rule_exists rs p.1 p.2 "tcp" "0.0.0.0/0") := by
        refine List.filter_congr fun p hp => ?_
        rw [rule_exists_append_port rs q.1 q.2 p.1 p.2 (by
          intro hqp
          exact hqd p hp (by
            rcases p with ⟨p1, p2⟩
            rcases q with ⟨q1, q2⟩
            exact hqp))]
      rw [hcong]
      simp [List.filter_cons, h1f, List.append_assoc]

/-- C4: if the named security group already exists and exactly four of the
five target port rules are present by exact match, `create_cm_security_group`
issues exactly one port-rule authorize call, for the missing rule, and none
for the four already present: the port-authorize events of its trace are
exactly `[authorize tcp p.1 p.2 0.0.0.0/0]` for the missing port `p`. -/
theorem C4_single_missing_rule (ec2 : EC2State) (sg_name : String) (cmsg : SecurityGroup)
    (hfind : ec2.securityGroups.find? (fun sg => sg.name == sg_name) = some cmsg)
    (p : String × String) (hp : p ∈ cm_ports)
    (hmiss : rule_exists cmsg.rules p.1 p.2 "tcp" "0.0.0.0/0" = false)
    (hrest : ∀ q ∈ cm_ports, q ≠ p → rule_exists cmsg.rules q.1 q.2 "tcp" "0.0.0.0/0" = true) :
    (create_cm_security_group ec2 noFailEC2 sg_name).2.2.filter isPortAuthorize
      = [Ev.authorize "tcp" p.1 p.2 "0.0.0.0/0"] := by
  have hd : cm_ports.Pairwise (· ≠ ·) := by decide
  have hfilter : cm_ports.filter
      (fun q => !rule_exists cmsg.rules q.1 q.2 "tcp" "0.0.0.0/0") = [p] := by
    fin_cases hp
    · have e2 : rule_exists cmsg.rules "20" "21" "tcp" "0.0.0.0/0" = true :=
        hrest ("20", "21") (by simp [cm_ports]) (by decide)
      have e3 : rule_exists cmsg.rules "22" "22" "tcp" "0.0.0.0/0" = true :=
        hrest ("22", "22") (by simp [cm_ports]) (by decide)
      have e4 : rule_exists cmsg.rules "30000" "30100" "tcp" "0.0.0.0/0" = true :=
        hrest ("30000", "30100") (by simp [cm_ports]) (by decide)
      have e5 : rule_exists cmsg.rules "42284" "42284" "tcp" "0.0.0.0/0" = true :=
        hrest ("42284", "42284") (by simp [cm_ports]) (by decide)
      simp [cm_ports, List.filter_cons, hmiss, e2, e3, e4, e5]
    · have e1 : rule_exists cmsg.rules "80" "80" "tcp" "0.0.0.0/0" = true :=
        hrest ("80", "80") (by simp [cm_ports]) (by decide)
      have e3 : rule_exists cmsg.rules "22" "22" "tcp" "0.0.0.0/0" = true :=
        hrest ("22", "22") (by simp [cm_ports]) (by decide)
      have e4 : rule_exists cmsg.rules "30000" "30100" "tcp" "0.0.0.0/0" = true :=
        hrest ("30000", "30100") (by simp [cm_ports]) (by decide)
      have e5 : rule_exists cmsg.rules "42284" "42284" "tcp" "0.0.0.0/0" = true :=
        hrest ("42284", "42284") (by simp [cm_ports]) (by decide)
      simp [cm_ports, List.filter_cons, hmiss, e1, e3, e4, e5]
    · have e1 : rule_exists cmsg.rules "80" "80" "tcp" "0.0.0.0/0" = true :=
        hrest ("80", "80") (by simp [cm_ports]) (by decide)
      have e2 : rule_exists cmsg.rules "20" "21" "tcp" "0.0.0.0/0" = true :=
        hrest ("20", "21") (by simp [cm_ports]) (by decide)
      have e4 : rule_exists cmsg.rules "30000" "30100" "tcp" "0.0.0.0/0" = true :=
        hrest ("30000", "30100") (by simp [cm_ports]) (by decide)
      have e5 : rule_exists cmsg.rules "42284" "42284" "tcp" "0.0.0.0/0" = true :=
        hrest ("42284", "42284") (by simp [cm_ports]) (by decide)
      simp [cm_ports, List.filter_cons, hmiss, e1, e2, e4, e5]
    · have e1 : rule_exists cmsg.rules "80" "80" "tcp" "0.0.0.0/0" = true :=
        hrest ("80", "80") (by simp [cm_ports]) (by decide)
      have e2 : rule_exists cmsg.rules "20" "21" "tcp" "0.0.0.0/0" = true :=
        hrest ("20", "21") (by simp [cm_ports]) (by decide)
      have e3 : rule_exists cmsg.rules "22" "22" "tcp" "0.0.0.0/0" = true :=
        hrest ("22", "22") (by simp [cm_ports]) (by decide)
      have e5 : rule_exists cmsg.rules "42284" "42284" "tcp" "0.0.0.0/0" = true :=
        hrest ("42284", "42284") (by simp [cm_ports]) (by decide)
      simp [cm_ports, List.filter_cons, hmiss, e1, e2, e3, e5]
    · have e1 : rule_exists cmsg.rules "80" "80" "tcp" "0.0.0.0/0" = true :=
        hrest ("80", "80") (by simp [cm_ports]) (by decide)
      have e2 : rule_exists cmsg.rules "20" "21" "tcp" "0.0.0.0/0" = true :=
        hrest ("20", "21") (by simp [cm_ports]) (by decide)
      have e3 : rule_exists cmsg.rules "22" "22" "tcp" "0.0.0.0/0" = true :=
        hrest ("22", "22") (by simp [cm_ports]) (by decide)
      have e4 : rule_exists cmsg.rules "30000" "30100" "tcp" "0.0.0.0/0" = true :=
        hrest ("30000", "30100") (by simp [cm_ports]) (by decide)
      simp [cm_ports, List.filter_cons, hmiss, e1, e2, e3, e4]
  have hap := authorizePorts_events_noFail cm_ports cmsg.rules hd
  rw [hfilter] at hap
  simp only [List.map_cons, List.map_nil] at hap
  have hga : noFailEC2.getAllSecurityGroups = false := rfl
  have hag : noFailEC2.authorizeGroup = false := rfl
  simp only [create_cm_security_group, hga, Bool.false_eq_true, if_false, hfind,
    configure_rules, hap]
  by_cases hg : group_rule_exists (cmsg.rules ++ [portRule p.1 p.2]) sg_name = true
  · simp [hg, isPortAuthorize]
  · simp [hg, hag, isPortAuthorize, List.filter_append]

/-- A concrete provider state for exercising C4: the CloudMan group exists
with four of the five target rules, missing the ssh (22, 22) rule. -/
def ec2FourRules : EC2State :=
  ⟨[⟨"CloudMan", [portRule "80" "80", portRule "20" "21",
      portRule "30000" "30100", portRule "42284" "42284"]⟩], []⟩

/-- Witness for C4 at a concrete state: with all rules but (22, 22) present,
the only port-authorize event is for (22, 22). -/
theorem C4_single_missing_rule_witness :
    (create_cm_security_group ec2FourRules noFailEC2 "CloudMan").2.2.filter isPortAuthorize
      = [Ev.authorize "tcp" "22" "22" "0.0.0.0/0"] :=
  C4_single_missing_rule ec2FourRules "CloudMan"
    ⟨"CloudMan", [portRule "80" "80", portRule "20" "21",
      portRule "30000" "30100", portRule "42284" "42284"]⟩
    (by decide) ("22", "22") (by decide) (by decide) (by decide)

instance {ε α : Type} [DecidableEq ε] [DecidableEq α] : DecidableEq (Except ε α) := fun x y =>
  match x, y with
  | Except.ok a, Except.ok b =>
    if h : a = b then isTrue (by rw [h]) else isFalse (fun hc => h (Except.ok.inj hc))
  | Except.error a, Except.error b =>
    if h : a = b then isTrue (by rw [h]) else isFalse (fun hc => h (Except.error.inj hc))
  | Except.ok _, Except.error _ => isFalse (fun hc => Except.noConfusion hc)
  | Except.error _, Except.ok _ => isFalse (fun hc => Except.noConfusion hc)

/-- Failure oracle that makes exactly the authorize call for the k-th target
port raise `EC2ResponseError`, succeeding on everything else. -/
def c5Fail (k : Fin cm_ports.length) : EC2Failures :=
  { noFailEC2 with authorize := fun a b =>
      a == (cm_ports.get k).1 && b == (cm_ports.get k).2 }

/-- C5: whichever of the five target port authorize calls raises, the error is
caught for that rule alone: the call still returns the group name, and the
trace shows an attempted authorize for every one of the five port rules and
for the final self-referential group rule. -/
theorem C5_best_effort_continuation :
    ∀ k : Fin cm_ports.length,
      (create_cm_security_group ⟨[], []⟩ (c5Fail k) "CloudMan").1 = Except.ok "CloudMan" ∧
      (create_cm_security_group ⟨[], []⟩ (c5Fail k) "CloudMan").2.2 =
        [Ev.getAllSecurityGroups, Ev.createSecurityGroup "CloudMan",
          Ev.authorize "tcp" "80" "80" "0.0.0.0/0",
          Ev.authorize "tcp" "20" "21" "0.0.0.0/0",
          Ev.authorize "tcp" "22" "22" "0.0.0.0/0",
          Ev.authorize "tcp" "30000" "30100" "0.0.0.0/0",
          Ev.authorize "tcp" "42284" "42284" "0.0.0.0/0",
          Ev.authorizeGroup "CloudMan"] := by decide

/-- Recognizer for provider create-key-pair calls in a trace. -/
def isCreateKeyPairEv : Ev → Bool
  | Ev.createKeyPair _ => true
  | _ => false

/-- C3: calling `create_key_pair` twice with the same name returns that name
both times, and only the first call issues a provider create call: the second
call finds the name and returns immediately, so the two traces together hold
exactly one create-key-pair event. -/
theorem C3_key_pair_idempotent (ec2 : EC2State) (key_name : String)
    (h : key_name ∉ ec2.keyPairs) :
    (create_key_pair ec2 noFailEC2 key_name).1 = Except.ok (some key_name) ∧
    (create_key_pair (create_key_pair ec2 noFailEC2 key_name).2.1 noFailEC2 key_name).1
      = Except.ok (some key_name) ∧
    (create_key_pair ec2 noFailEC2 key_name).2.2
      = [Ev.getAllKeyPairs, Ev.createKeyPair key_name] ∧
    (create_key_pair (create_key_pair ec2 noFailEC2 key_name).2.1 noFailEC2 key_name).2.2
      = [Ev.getAllKeyPairs] ∧
    (((create_key_pair ec2 noFailEC2 key_name).2.2
        ++ (create_key_pair (create_key_pair ec2 noFailEC2 key_name).2.1
            noFailEC2 key_name).2.2).filter isCreateKeyPairEv).length = 1 := by
  have hga : noFailEC2.getAllKeyPairs = false := rfl
  have hck : noFailEC2.createKeyPair = false := rfl
  have hf1 : ec2.keyPairs.find? (fun akp => akp == key_name) = none :=
    List.find?_eq_none.mpr fun x hx hbeq => h (eq_of_beq hbeq ▸ hx)
  have h1 : create_key_pair ec2 noFailEC2 key_name =
      (Except.ok (some key_name),
        { ec2 with keyPairs := (ec2.keyPairs ++ [key_name]) },
        [Ev.getAllKeyPairs, Ev.createKeyPair key_name]) := by
    simp only [create_key_pair, hga, hck, Bool.false_eq_true, if_false, hf1]
  have hf2 : (ec2.keyPairs ++ [key_name]).find? (fun akp => akp == key_name)
      = some key_name := by
    rw [find?_append_none _ _ ec2.keyPairs hf1]
    exact List.find?_cons_of_pos _ (by simp)
  rw [h1]
  simp only [create_key_pair, hga, Bool.false_eq_true, if_false, hf2]
  simp [isCreateKeyPairEv]

/-- Witness for C3 at a concrete provider state with no key pairs. -/
theorem C3_key_pair_idempotent_witness :
    ("cloudman_key_pair" ∉ (⟨[], []⟩ : EC2State).keyPairs) ∧
    (create_key_pair ⟨[], []⟩ noFailEC2 "cloudman_key_pair").1
      = Except.ok (some "cloudman_key_pair") ∧
    (create_key_pair (create_key_pair ⟨[], []⟩ noFailEC2 "cloudman_key_pair").2.1
        noFailEC2 "cloudman_key_pair").1 = Except.ok (some "cloudman_key_pair") ∧
    (create_key_pair ⟨[], []⟩ noFailEC2 "cloudman_key_pair").2.2
      = [Ev.getAllKeyPairs, Ev.createKeyPair "cloudman_key_pair"] ∧
    (create_key_pair (create_key_pair ⟨[], []⟩ noFailEC2 "cloudman_key_pair").2.1
        noFailEC2 "cloudman_key_pair").2.2 = [Ev.getAllKeyPairs] ∧
    (((create_key_pair ⟨[], []⟩ noFailEC2 "cloudman_key_pair").2.2
        ++ (create_key_pair (create_key_pair ⟨[], []⟩ noFailEC2 "cloudman_key_pair").2.1
            noFailEC2 "cloudman_key_pair").2.2).filter isCreateKeyPairEv).length = 1 :=
  ⟨by simp, C3_key_pair_idempotent ⟨[], []⟩ "cloudman_key_pair" (by simp)⟩

/-- Oracle under which the `get_all_key_pairs` listing call raises. -/
def failListKeyPairs : EC2Failures := { noFailEC2 with getAllKeyPairs := true }

/-- C2 counterexample: a provider error raised by `get_all_key_pairs` inside
`create_key_pair` is not caught by any `try/except` and propagates to the
caller as an uncaught `EC2ResponseError`, so not every provider API error is
converted into a logged failure plus a null return. -/
theorem C2_counterexample_uncaught_listing :
    (create_key_pair ⟨[], []⟩ failListKeyPairs "cloudman_key_pair").1
      = Except.error Exn.ec2ResponseError := rfl

/-- Result classifier: did the embedded function return normally (no uncaught
exception propagated)? -/
def isOkE {α : Type} : Except Exn α → Bool
  | Except.ok _ => true
  | Except.error _ => false

theorem iam_users_and_keys_returns (st : IAMState) (f : IAMFailures)
    (group_name user_name : String) :
    isOkE (iam_users_and_keys st f group_name user_name).1 = true := by
  simp only [iam_users_and_keys]
  repeat' split <;> try rfl

theorem create_iam_user_returns (iam : IAMState) (f : IAMFailures)
    (group_name user_name : String) :
    isOkE (create_iam_user iam f group_name user_name).1 = true := by
  simp only [create_iam_user]
  repeat' split <;> try rfl
  all_goals exact iam_users_and_keys_returns _ f group_name user_name

/-- C2 amended: errors raised inside the module's `try/except` blocks are
caught and downgraded to a logged failure plus a null result — anywhere in
`create_iam_user`, in the authorize calls of `create_cm_security_group`, in
the create call of `create_key_pair`, and in the launch call of
`run_instance`.  But the listing calls `get_all_security_groups` and
`get_all_key_pairs` and the `create_security_group` call sit outside every
`try` block, so the no-propagation guarantee holds only when those calls
succeed. -/
theorem C2_amended_error_containment :
    (∀ (iam : IAMState) (f : IAMFailures) (g u : String),
        isOkE (create_iam_user iam f g u).1 = true) ∧
    (∀ (ec2 : EC2State) (f : EC2Failures) (k : String),
        f.getAllKeyPairs = false → isOkE (create_key_pair ec2 f k).1 = true) ∧
    (∀ (ec2 : EC2State) (f : EC2Failures) (n : String),
        f.getAllSecurityGroups = false → f.createSecurityGroup = false →
        isOkE (create_cm_security_group ec2 f n).1 = true) ∧
    (∀ (ec2 : EC2State) (f : EC2Failures) (d : List (String × String)) (t : String),
        lookupKey d "instance_type" = some t →
        isOkE (run_instance ec2 f d).1 = true) := by
  refine ⟨create_iam_user_returns, ?_, ?_, ?_⟩
  · intro ec2 f k h
    simp only [create_key_pair, h, Bool.false_eq_true, if_false]
    repeat' split
    all_goals rfl
  · intro ec2 f n h1 h2
    simp only [create_cm_security_group, h1, h2, Bool.false_eq_true, if_false]
    repeat' split
    all_goals rfl
  · intro ec2 f d t h
    simp only [run_instance, h]
    repeat' split
    all_goals rfl

/-- Witness for C2 amended, at concrete states and the all-success oracles. -/
theorem C2_amended_error_containment_witness :
    isOkE (create_iam_user ⟨[], [], [], [], [], 2, 0⟩ noFailIAM
        "BioCloudCentral" "cloudman").1 = true ∧
    isOkE (create_key_pair ⟨[], []⟩ noFailEC2 "cloudman_key_pair").1 = true ∧
    isOkE (create_cm_security_group ⟨[], []⟩ noFailEC2 "CloudMan").1 = true ∧
    isOkE (run_instance ⟨[], []⟩ noFailEC2 [("instance_type", "m1.large")]).1 = true :=
  ⟨C2_amended_error_containment.1 ⟨[], [], [], [], [], 2, 0⟩ noFailIAM
      "BioCloudCentral" "cloudman",
    C2_amended_error_containment.2.1 ⟨[], []⟩ noFailEC2 "cloudman_key_pair" rfl,
    C2_amended_error_containment.2.2.1 ⟨[], []⟩ noFailEC2 "CloudMan" rfl rfl,
    C2_amended_error_containment.2.2.2 ⟨[], []⟩ noFailEC2
      [("instance_type", "m1.large")] "m1.large" rfl⟩

/-! The property-bag manipulation of `run_instance`. -/

theorem delKey_eq_filter (k : String) :
    ∀ d : List (String × String), (d.map Prod.fst).Nodup →
      delKey d k = d.filter (fun kv => !(kv.1 == k)) := by
  intro d
  induction d with
  | nil => intro _; rfl
  | cons kv rest ih =>
    intro hnd
    rw [List.map_cons, List.nodup_cons] at hnd
    obtain ⟨hk, hrest⟩ := hnd
    by_cases h : (kv.1 == k) = true
    · have hkv : kv.1 = k := eq_of_beq h
      have hall : ∀ e ∈ rest, (!(e.1 == k)) = true := by
        intro e he
        have hne : e.1 ≠ k := by
          intro hek
          apply hk
          have hm : e.1 ∈ rest.map Prod.fst := List.mem_map_of_mem Prod.fst he
          rw [hek] at hm
          rw [hkv]
          exact hm
        simp [hne]
      simp only [delKey, h, if_true, List.filter_cons]
      simp [h, List.filter_eq_self.mpr hall]
    · simp only [delKey, h, Bool.false_eq_true, if_false, List.filter_cons]
      simp [h, ih hrest]

theorem lookupKey_filter_ne (d : List (String × String)) (k : String) :
    lookupKey (d.filter (fun kv => !(kv.1 == k))) k = none := by
  have h : (d.filter (fun kv => !(kv.1 == k))).find? (fun kv => kv.1 == k) = none := by
    refine List.find?_eq_none.mpr fun kv hkv hb => ?_
    have h2 := (List.mem_filter.mp hkv).2
    rw [hb] at h2
    simp at h2
  unfold lookupKey
  rw [h]
  rfl

/-- C6: the user-data payload `run_instance` hands to the provider never
contains the instance-type key: it is exactly the newline join of the
`key: value` lines of all other property-bag entries, in insertion order. -/
theorem C6_user_data_excludes_instance_type (ec2 : EC2State) (f : EC2Failures)
    (d : List (String × String)) (t : String)
    (hnd : (d.map Prod.fst).Nodup)
    (hl : lookupKey d "instance_type" = some t) :
    (run_instance ec2 f d).2.2.1 =
      [Ev.runInstances t (String.intercalate "\n"
        ((d.filter (fun kv => !(kv.1 == "instance_type"))).map
          (fun kv => kv.1 ++ ": " ++ kv.2)))] := by
  simp only [run_instance, hl]
  by_cases hf : f.runInstances = true <;>
    simp [hf, user_data, delKey_eq_filter "instance_type" d hnd]

/-- Witness for C6 at a concrete property bag. -/
theorem C6_user_data_excludes_instance_type_witness :
    (([("instance_type", "m1.large"), ("cluster_name", "c1"), ("password", "p")].map
        Prod.fst).Nodup) ∧
    (run_instance ⟨[], []⟩ noFailEC2
        [("instance_type", "m1.large"), ("cluster_name", "c1"), ("password", "p")]).2.2.1 =
      [Ev.runInstances "m1.large" (String.intercalate "\n"
        (([("instance_type", "m1.large"), ("cluster_name", "c1"), ("password", "p")].filter
            (fun kv => !(kv.1 == "instance_type"))).map
          (fun kv => kv.1 ++ ": " ++ kv.2)))] :=
  ⟨by simp,
    C6_user_data_excludes_instance_type ⟨[], []⟩ noFailEC2
      [("instance_type", "m1.large"), ("cluster_name", "c1"), ("password", "p")]
      "m1.large" (by simp) rfl⟩

/-- C9: `run_instance` leaves the caller's property bag without the
instance-type key and with every other entry unchanged in order (the in-place
`del` is modelled by returning the post-call bag). -/
theorem C9_property_bag_mutated (ec2 : EC2State) (f : EC2Failures)
    (d : List (String × String)) (t : String)
    (hnd : (d.map Prod.fst).Nodup)
    (hl : lookupKey d "instance_type" = some t) :
    (run_instance ec2 f d).2.2.2 = d.filter (fun kv => !(kv.1 == "instance_type")) ∧
    lookupKey ((run_instance ec2 f d).2.2.2) "instance_type" = none := by
  have h1 : (run_instance ec2 f d).2.2.2
      = d.filter (fun kv => !(kv.1 == "instance_type")) := by
    simp only [run_instance, hl]
    by_cases hf : f.runInstances = true <;>
      simp [hf, delKey_eq_filter "instance_type" d hnd]
  refine ⟨h1, ?_⟩
  rw [h1]
  exact lookupKey_filter_ne d "instance_type"

/-- Witness for C9 at a concrete property bag. -/
theorem C9_property_bag_mutated_witness :
    (([("cluster_name", "c1"), ("instance_type", "m1.large"), ("password", "p")].map
        Prod.fst).Nodup) ∧
    (run_instance ⟨[], []⟩ noFailEC2
        [("cluster_name", "c1"), ("instance_type", "m1.large"), ("password", "p")]).2.2.2 =
      [("cluster_name", "c1"), ("instance_type", "m1.large"), ("password", "p")].filter
        (fun kv => !(kv.1 == "instance_type")) ∧
    lookupKey ((run_instance ⟨[], []⟩ noFailEC2
        [("cluster_name", "c1"), ("instance_type", "m1.large"), ("password", "p")]).2.2.2)
        "instance_type" = none :=
  ⟨by simp,
    C9_property_bag_mutated ⟨[], []⟩ noFailEC2
      [("cluster_name", "c1"), ("instance_type", "m1.large"), ("password", "p")]
      "m1.large" (by simp) rfl⟩

/-- C10: when the property bag holds no instance-type key, `run_instance`
fails with an uncaught `KeyError` before issuing any provider call: the trace
is empty, the state untouched, and the error propagates. -/
theorem C10_missing_instance_type_uncaught (ec2 : EC2State) (f : EC2Failures)
    (d : List (String × String)) (h : lookupKey d "instance_type" = none) :
    run_instance ec2 f d = (Except.error Exn.keyError, ec2, [], d) := by
  simp only [run_instance, h]

/-- Witness for C10 at a concrete property bag without the key. -/
theorem C10_missing_instance_type_uncaught_witness :
    lookupKey [("cluster_name", "c1")] "instance_type" = none ∧
    run_instance ⟨[], []⟩ noFailEC2 [("cluster_name", "c1")]
      = (Except.error Exn.keyError, ⟨[], []⟩, [], [("cluster_name", "c1")]) :=
  ⟨rfl, C10_missing_instance_type_uncaught ⟨[], []⟩ noFailEC2 [("cluster_name", "c1")] rfl⟩

/-! Credential issuance (C7, C8). -/

/-- A fresh IAM account whose provider enforces the AWS two-keys-per-user
limit. -/
def iamTwoKeyLimit : IAMState := ⟨[], [], [], [], [], 2, 0⟩

/-- First `create_iam_user` call against the fresh two-key-limit account. -/
def c7_run1 : Except Exn (Option String × Option String) × IAMState × List Ev :=
  create_iam_user iamTwoKeyLimit noFailIAM "BioCloudCentral" "cloudman"

/-- Second call, on the state the first call left behind. -/
def c7_run2 : Except Exn (Option String × Option String) × IAMState × List Ev :=
  create_iam_user c7_run1.2.1 noFailIAM "BioCloudCentral" "cloudman"

/-- Third call, on the state the second call left behind. -/
def c7_run3 : Except Exn (Option String × Option String) × IAMState × List Ev :=
  create_iam_user c7_run2.2.1 noFailIAM "BioCloudCentral" "cloudman"

/-- C7: credential issuance is not idempotent — calls 1 and 2 each mint a
fresh, distinct access-key pair, and call 3 hits the two-key quota: the
provider error is caught and surfaced as a `(None, None)` return rather than
an exception. -/
theorem C7_credential_issuance_quota :
    c7_run1.1 = Except.ok (some "AKIA0", some "SK0") ∧
    c7_run2.1 = Except.ok (some "AKIA1", some "SK1") ∧
    c7_run1.1 ≠ c7_run2.1 ∧
    c7_run3.1 = Except.ok (none, none) := by decide

/-- Recognizer for `put_group_policy` calls in a trace. -/
def isPutGroupPolicyEv : Ev → Bool
  | Ev.putGroupPolicy _ _ _ => true
  | _ => false

theorem iam_users_and_keys_no_put (st : IAMState) (f : IAMFailures) (g u : String) :
    (iam_users_and_keys st f g u).2.2.filter isPutGroupPolicyEv = [] := by
  simp only [iam_users_and_keys]
  repeat' split
  all_goals simp [isPutGroupPolicyEv]

/-- C8: on every invocation that reaches the policy step, `create_iam_user`
attaches the policy document via `put_group_policy` exactly once,
unconditionally — whether or not the group already existed and whatever
policies are already attached. -/
theorem C8_policy_put_unconditional (iam : IAMState) (f : IAMFailures) (g u : String)
    (h1 : f.getAllGroups = false) (h2 : f.createGroup = false) :
    (create_iam_user iam f g u).2.2.filter isPutGroupPolicyEv
      = [Ev.putGroupPolicy g (g ++ "Policy") CM_POLICY] := by
  simp only [create_iam_user, h1, Bool.false_eq_true, if_false, h2, Bool.and_false]
  by_cases hc : iam.groups.contains g <;>
    by_cases hp : f.putGroupPolicy <;>
      simp [hc, hp, isPutGroupPolicyEv, List.filter_append, iam_users_and_keys_no_put]
  all_goals split <;> simp [isPutGroupPolicyEv]

/-- Witness for C8: concrete run in which the group is created and the policy
is attached exactly once. -/
theorem C8_policy_put_unconditional_witness :
    (create_iam_user iamTwoKeyLimit noFailIAM "BioCloudCentral" "cloudman").2.2.filter
        isPutGroupPolicyEv
      = [Ev.putGroupPolicy "BioCloudCentral" ("BioCloudCentral" ++ "Policy") CM_POLICY] :=
  C8_policy_put_unconditional iamTwoKeyLimit noFailIAM "BioCloudCentral" "cloudman" rfl rfl

end Launch
